import Mathlib

/-!
Shallow embedding of the SkillSwap server (Express + SQLite) business logic.

The embedded code:
  * `swaps` router (`POST /`, `PUT /:id/status`, `DELETE /:id`),
  * `ratings` router, upsert variant (`POST /swap/:swapId`, `GET /user/:userId`)
    together with `updateUserAverageRating`,
  * `skills` router (`PUT /:id`, `DELETE /:id`),
  * WebSocket notification relay (connection registry, heartbeat, send),
  * admin router (`PUT /users/:id/ban`).

Database tables become lists of records; `db.get` becomes `List.find?`
(first matching row), `db.run UPDATE ...` becomes `List.map` guarded by the
SQL `WHERE` predicate, `db.run DELETE` becomes `List.filter`, and
`AUTOINCREMENT` row ids become an explicit next-id counter.  Each route
handler becomes a pure function from the database state (plus the
authenticated user's id and the request parameters) to an HTTP-level
result; an error result carries the HTTP status code and the `error`
message string exactly as the handler sends them, and leaves the database
untouched (the handlers return before any write in every error branch).
Timestamps (`datetime('now')` / `CURRENT_TIMESTAMP`) are passed in as an
explicit `now : Nat` parameter.  SQL `AVG` over integer ratings is
computed exactly, in `ℚ`.
-/

namespace SkillSwap

/-- The five values admitted by the `status` CHECK constraint of the
`swap_requests` table. -/
inductive SwapStatus where
  | pending
  | accepted
  | rejected
  | completed
  | cancelled
deriving DecidableEq, Repr

/-- The TEXT stored in the `status` column for each state. -/
def SwapStatus.text : SwapStatus → String
  | .pending => "pending"
  | .accepted => "accepted"
  | .rejected => "rejected"
  | .completed => "completed"
  | .cancelled => "cancelled"

/-- Row of the `users` table (the columns the embedded handlers read or
write: id, isAdmin, isBanned, rating, updatedAt). -/
structure User where
  id : Nat
  isAdmin : Bool
  isBanned : Bool
  rating : ℚ
  updatedAt : Nat
deriving DecidableEq, Repr

/-- Row of the `skills` table (the columns the embedded handlers touch). -/
structure Skill where
  id : Nat
  userId : Nat
  name : String
  description : Option String
  proficiency : String
  category : String
  isOffering : Bool
  isSeeking : Bool
  updatedAt : Nat
deriving DecidableEq, Repr

/-- Row of the `swap_requests` table. -/
structure SwapRequest where
  id : Nat
  requesterId : Nat
  skillOfferedId : Nat
  skillRequestedId : Nat
  status : SwapStatus
  message : Option String
  completedAt : Option Nat
  ratingByRequester : Option Nat
  ratingByReceiver : Option Nat
  feedbackByRequester : Option String
  feedbackByReceiver : Option String
  createdAt : Nat
  updatedAt : Nat
deriving DecidableEq, Repr

/-- Row of the `ratings` table as used by the upsert rating route:
`userId` is the rated user, `raterId` the author, `comment` the feedback. -/
structure Rating where
  id : Nat
  swapId : Nat
  raterId : Nat
  userId : Nat
  rating : Nat
  comment : Option String
  createdAt : Nat
  updatedAt : Nat
deriving DecidableEq, Repr

/-- The relational store: one list per table, plus the AUTOINCREMENT
counters for the tables the embedded handlers insert into. -/
structure DB where
  users : List User
  skills : List Skill
  swapRequests : List SwapRequest
  ratings : List Rating
  nextSwapId : Nat
  nextRatingId : Nat
deriving DecidableEq, Repr

/-- `SELECT ... FROM skills WHERE id = ?` (first row or none). -/
def DB.findSkill (db : DB) (skillId : Nat) : Option Skill :=
  db.skills.find? (fun s => s.id = skillId)

/-- `SELECT ... FROM swap_requests WHERE id = ?` (first row or none). -/
def DB.findSwap (db : DB) (swapId : Nat) : Option SwapRequest :=
  db.swapRequests.find? (fun sr => sr.id = swapId)

/-- `SELECT ... FROM users WHERE id = ?` (first row or none). -/
def DB.findUser (db : DB) (userId : Nat) : Option User :=
  db.users.find? (fun u => u.id = userId)

/-- An HTTP error response: status code and the `error` field of the JSON
body, exactly as the handler sends them. -/
structure ApiError where
  code : Nat
  error : String
deriving DecidableEq, Repr

/-- Equality of handler outcomes is decidable (used to evaluate the
embedded handlers on concrete inputs). -/
instance exceptDecEq {ε α : Type} [DecidableEq ε] [DecidableEq α] :
    DecidableEq (Except ε α)
  | .ok a, .ok b =>
    if h : a = b then .isTrue (by rw [h]) else .isFalse (by simp [h])
  | .error a, .error b =>
    if h : a = b then .isTrue (by rw [h]) else .isFalse (by simp [h])
  | .ok _, .error _ => .isFalse (by simp)
  | .error _, .ok _ => .isFalse (by simp)

/-!
## Swap lifecycle routes (swaps router)

`PUT /:id/status`: the handler first rejects a target status outside
`['accepted','rejected','completed','cancelled']`, then loads the swap
request joined with the requested skill (whose owner is the provider),
then runs the role checks of the cited source lines, and finally writes
the new status unconditionally — the source contains no read of the
current `status` column anywhere in this handler.
-/

/-- The `SwapStatus` stored for each of the four admitted target strings
(the handler's allow-list guarantees no other string reaches the write). -/
def parseTarget (status : String) : SwapStatus :=
  if status = "accepted" then .accepted
  else if status = "rejected" then .rejected
  else if status = "completed" then .completed
  else .cancelled

/-- The row mutation of the status write: set the new status, stamp
`updatedAt`, and stamp `completedAt` when the target is `completed`. -/
def statusWriteRow (status : String) (now : Nat) (sr : SwapRequest) :
    SwapRequest :=
  { sr with
    status := parseTarget status
    updatedAt := now
    completedAt := if status = "completed" then some now else sr.completedAt }

/-- The transactional write of `PUT /swaps/:id/status`:
`UPDATE swap_requests SET status = ?, updatedAt = datetime("now") WHERE
id = ?`, followed for `completed` by `UPDATE swap_requests SET completedAt
= datetime("now") WHERE id = ?`. -/
def applyStatusWrite (db : DB) (swapRequestId : Nat) (status : String)
    (now : Nat) : DB :=
  { db with
    swapRequests := db.swapRequests.map (fun sr =>
      if sr.id = swapRequestId then statusWriteRow status now sr else sr) }

/-- Outcome of `PUT /swaps/:id/status`: either an error response or the
updated database (the success body is `Swap request <status> successfully`). -/
def updateSwapStatus (db : DB) (userId : Nat) (swapRequestId : Nat)
    (status : String) (now : Nat) : Except ApiError DB :=
  if ¬ (status = "accepted" ∨ status = "rejected" ∨ status = "completed"
        ∨ status = "cancelled") then
    .error ⟨400, "Invalid status"⟩
  else
    -- `SELECT sr.*, s.userId as skillOwnerId ... JOIN skills s ON
    -- sr.skillRequestedId = s.id WHERE sr.id = ?`: the inner join yields a
    -- row only when both the swap request and its requested skill exist.
    match db.findSwap swapRequestId with
    | none => .error ⟨404, "Swap request not found"⟩
    | some sr =>
      match db.findSkill sr.skillRequestedId with
      | none => .error ⟨404, "Swap request not found"⟩
      | some s =>
        let skillOwnerId := s.userId
        if status = "accepted" ∨ status = "rejected" then
          if skillOwnerId ≠ userId then
            .error ⟨403, "Only the provider can accept or reject the request"⟩
          else if sr.requesterId = userId then
            .error ⟨403, "You cannot accept or reject your own swap request"⟩
          else
            .ok (applyStatusWrite db swapRequestId status now)
        else if status = "cancelled" then
          if sr.requesterId ≠ userId then
            if skillOwnerId = userId then
              .error ⟨400, "You cannot cancel this request"⟩
            else
              .error ⟨403, "Only the requester can cancel the request"⟩
          else
            .ok (applyStatusWrite db swapRequestId status now)
        else if status = "completed" then
          if sr.requesterId ≠ userId ∧ skillOwnerId ≠ userId then
            .error ⟨403, "Only the requester or provider can complete the swap"⟩
          else
            .ok (applyStatusWrite db swapRequestId status now)
        else
          -- unreachable: the four admitted strings are covered above
          .ok (applyStatusWrite db swapRequestId status now)

/-!
`POST /swaps`: create a swap request.  The body carries `providerId`,
`offeredSkillId`, `wantedSkillId` (all required) and an optional
`message`; absent fields are `none`.
-/

/-- The row inserted by `POST /swaps`:
`INSERT INTO swap_requests (requesterId, skillOfferedId, skillRequestedId,
message, status, createdAt, updatedAt) VALUES (?, ?, ?, ?, 'pending',
datetime('now'), datetime('now'))`. -/
def newSwapRow (newId requesterId offeredSkillId wantedSkillId : Nat)
    (message : Option String) (now : Nat) : SwapRequest :=
  { id := newId
    requesterId := requesterId
    skillOfferedId := offeredSkillId
    skillRequestedId := wantedSkillId
    status := .pending
    message := message
    completedAt := none
    ratingByRequester := none
    ratingByReceiver := none
    feedbackByRequester := none
    feedbackByReceiver := none
    createdAt := now
    updatedAt := now }

/-- Outcome of `POST /swaps`: an error, or the `swap_request_id` of the
inserted row (from `result.lastID`) together with the updated database. -/
def createSwapRequest (db : DB) (requesterId : Nat)
    (providerId offeredSkillId wantedSkillId : Option Nat)
    (message : Option String) (now : Nat) : Except ApiError (Nat × DB) :=
  match providerId, offeredSkillId, wantedSkillId with
  | some providerId, some offeredSkillId, some wantedSkillId =>
    -- `SELECT id FROM skills WHERE id = ? AND userId = ? AND isOffering = 1`
    -- with the requester's id: the requester must own the offered skill.
    match db.skills.find? (fun s =>
        s.id = offeredSkillId ∧ s.userId = requesterId ∧ s.isOffering) with
    | none => .error ⟨400, "Invalid offered skill"⟩
    | some _ =>
      -- same query with the body's `providerId`: the provider named in the
      -- body must own the wanted skill (it is not compared with the
      -- requester's id anywhere).
      match db.skills.find? (fun s =>
          s.id = wantedSkillId ∧ s.userId = providerId ∧ s.isOffering) with
      | none => .error ⟨400, "Invalid wanted skill"⟩
      | some _ =>
        -- `SELECT id FROM swap_requests WHERE requesterId = ? AND
        -- skillRequestedId = ? AND status = 'pending'`
        match db.swapRequests.find? (fun sr =>
            sr.requesterId = requesterId ∧ sr.skillRequestedId = wantedSkillId
            ∧ sr.status = SwapStatus.pending) with
        | some _ =>
          .error ⟨400, "You already have a pending request for this skill"⟩
        | none =>
          let newId := db.nextSwapId
          .ok (newId,
            { db with
              swapRequests := db.swapRequests ++
                [newSwapRow newId requesterId offeredSkillId wantedSkillId
                  message now]
              nextSwapId := newId + 1 })
  | _, _, _ => .error ⟨400, "Missing required fields"⟩

/-!
`DELETE /swaps/:id`: delete a swap request.  The handler loads the swap
request, then the owner of its requested skill (the provider), checks
that the caller is the provider or the requester, re-reads the status and
refuses anything but `pending`, and finally deletes the row.
-/

/-- Outcome of `DELETE /swaps/:id`: an error, or the database with the row
removed (success body `Swap request deleted successfully`). -/
def deleteSwapRequest (db : DB) (userId : Nat) (swapRequestId : Nat) :
    Except ApiError DB :=
  match db.findSwap swapRequestId with
  | none => .error ⟨404, "Swap request not found"⟩
  | some sr =>
    match db.findSkill sr.skillRequestedId with
    | none => .error ⟨404, "Requested skill not found"⟩
    | some providerSkill =>
      if providerSkill.userId ≠ userId ∧ sr.requesterId ≠ userId then
        .error ⟨403, "Not authorized to update this swap request"⟩
      else if sr.status ≠ SwapStatus.pending then
        .error ⟨400, "Only pending swap requests can be deleted"⟩
      else
        .ok { db with
              swapRequests :=
                db.swapRequests.filter (fun r => ¬ r.id = swapRequestId) }

/-!
## Rating routes (ratings router, upsert variant) and the average helper

`updateUserAverageRating` recomputes `AVG(rating)` over `ratings WHERE
userId = ?` and stores it — unrounded — in `users.rating` (`AVG` of an
empty set is NULL, and `result.averageRating || 0` turns that into 0).
Rounding to one decimal happens only in `GET /ratings/user/:userId`,
via `Number(ratingStats.avgRating.toFixed(1))`.
-/

/-- All rating rows received by `userId` (`ratings WHERE userId = ?`). -/
def DB.ratingsFor (db : DB) (userId : Nat) : List Rating :=
  db.ratings.filter (fun r => r.userId = userId)

/-- `AVG(rating)` over the ratings received by `userId`, as an exact
rational; `none` when the user has no ratings (SQL NULL). -/
def DB.avgRating (db : DB) (userId : Nat) : Option ℚ :=
  let rs := db.ratingsFor userId
  if rs.length = 0 then none
  else some ((rs.map (fun r => (r.rating : ℚ))).sum / rs.length)

/-- `updateUserAverageRating`: persist the freshly computed average (or 0
when NULL) into `users.rating`, stamping `updatedAt`. -/
def updateUserAverageRating (db : DB) (userId : Nat) (now : Nat) : DB :=
  let newRating : ℚ := (db.avgRating userId).getD 0
  { db with
    users := db.users.map (fun u =>
      if u.id = userId then { u with rating := newRating, updatedAt := now }
      else u) }

/-- `x.toFixed(1)` on a nonnegative value: round to the nearest tenth,
halves away from zero (for nonnegative arguments that is half-up,
`⌊10x + 1/2⌋ / 10`). -/
def roundTenth (q : ℚ) : ℚ := (⌊10 * q + 1/2⌋ : ℤ) / 10

/-- The in-place mutation of an existing rating row:
`UPDATE ratings SET rating = ?, comment = ?, updatedAt = CURRENT_TIMESTAMP
WHERE id = ?`. -/
def ratingUpdateRow (rating : Nat) (feedback : Option String) (now : Nat)
    (rr : Rating) : Rating :=
  { rr with rating := rating, comment := feedback, updatedAt := now }

/-- The row inserted for a first-time rating:
`INSERT INTO ratings (swapId, raterId, userId, rating, comment, createdAt,
updatedAt) VALUES (?, ?, ?, ?, ?, CURRENT_TIMESTAMP, CURRENT_TIMESTAMP)`. -/
def newRatingRow (newId swapId raterId ratedId rating : Nat)
    (feedback : Option String) (now : Nat) : Rating :=
  { id := newId
    swapId := swapId
    raterId := raterId
    userId := ratedId
    rating := rating
    comment := feedback
    createdAt := now
    updatedAt := now }

/-- Outcome of `POST /ratings/swap/:swapId` (upsert variant): an error, or
the updated database (success body `Rating added successfully`). -/
def submitRating (db : DB) (userId : Nat) (swapId : Nat) (rating : Nat)
    (feedback : Option String) (now : Nat) : Except ApiError DB :=
  -- `SELECT * FROM swap_requests WHERE id = ? AND status = 'completed'`
  match db.swapRequests.find? (fun sr =>
      sr.id = swapId ∧ sr.status = SwapStatus.completed) with
  | none => .error ⟨404, "Completed swap request not found"⟩
  | some swapRequest =>
    -- `SELECT userId FROM skills WHERE id = ?` on the requested skill
    match db.findSkill swapRequest.skillRequestedId with
    | none => .error ⟨404, "Requested skill not found"⟩
    | some skillOwner =>
      if swapRequest.requesterId ≠ userId ∧ skillOwner.userId ≠ userId then
        .error ⟨403, "You are not part of this swap"⟩
      else
        let ratedId :=
          if swapRequest.requesterId = userId then skillOwner.userId
          else swapRequest.requesterId
        -- `SELECT id, userId FROM ratings WHERE swapId = ? AND raterId = ?`
        let db1 : DB :=
          match db.ratings.find? (fun r =>
              r.swapId = swapId ∧ r.raterId = userId) with
          | some existing =>
            -- `UPDATE ratings SET rating = ?, comment = ? WHERE id = ?`
            { db with
              ratings := db.ratings.map (fun r =>
                if r.id = existing.id then ratingUpdateRow rating feedback now r
                else r) }
          | none =>
            -- `INSERT INTO ratings (swapId, raterId, userId, rating, comment, ...)`
            { db with
              ratings := db.ratings ++
                [newRatingRow db.nextRatingId swapId userId ratedId rating
                  feedback now]
              nextRatingId := db.nextRatingId + 1 }
        -- `UPDATE swap_requests SET ratingByRequester/... WHERE id = ?`
        let db2 : DB :=
          { db1 with
            swapRequests := db1.swapRequests.map (fun sr =>
              if sr.id = swapId then
                if userId = swapRequest.requesterId then
                  { sr with ratingByRequester := some rating,
                            feedbackByRequester := feedback, updatedAt := now }
                else
                  { sr with ratingByReceiver := some rating,
                            feedbackByReceiver := feedback, updatedAt := now }
              else sr) }
        .ok (updateUserAverageRating db2 ratedId now)

/-- Response body of `GET /ratings/user/:userId`: the displayed average
(`null` when the user has no ratings) and the count of received ratings. -/
structure RatingStatsView where
  avgRating : Option ℚ
  totalRatings : Nat
deriving DecidableEq, Repr

/-- `GET /ratings/user/:userId`: `AVG(rating)`/`COUNT(*)` over the
received ratings; the average is displayed as `toFixed(1)` when truthy. -/
def getRatingsForUser (db : DB) (userId : Nat) : RatingStatsView :=
  let avg := db.avgRating userId
  { avgRating :=
      match avg with
      | none => none
      | some q => if q = 0 then none else some (roundTenth q)
    totalRatings := (db.ratingsFor userId).length }

/-!
## Skill routes (skills router)

`PUT /skills/:id` and `DELETE /skills/:id` both start with
`SELECT id FROM skills WHERE id = ? AND userId = ?`; when that query finds
no row — whether because the id does not exist or because the row belongs
to someone else — the handler answers `404 Skill not found`.  No branch of
either handler produces a 403.
-/

/-- Body of `PUT /skills/:id`. -/
structure SkillUpdateInput where
  name : String
  type : String
  description : Option String
  proficiency_level : String
deriving DecidableEq, Repr

/-- Outcome of `PUT /skills/:id` (success body `Skill updated successfully`). -/
def updateSkill (db : DB) (userId : Nat) (skillId : Nat)
    (input : SkillUpdateInput) (now : Nat) : Except ApiError DB :=
  match db.skills.find? (fun s => s.id = skillId ∧ s.userId = userId) with
  | none => .error ⟨404, "Skill not found"⟩
  | some _ =>
    .ok { db with
          skills := db.skills.map (fun s =>
            if s.id = skillId ∧ s.userId = userId then
              { s with
                name := input.name
                isOffering := input.type = "offered"
                isSeeking := input.type = "wanted"
                description := input.description
                proficiency := input.proficiency_level
                updatedAt := now }
            else s) }

/-- Outcome of `DELETE /skills/:id` (success body `Skill deleted successfully`). -/
def deleteSkill (db : DB) (userId : Nat) (skillId : Nat) :
    Except ApiError DB :=
  match db.skills.find? (fun s => s.id = skillId ∧ s.userId = userId) with
  | none => .error ⟨404, "Skill not found"⟩
  | some _ =>
    .ok { db with
          skills := db.skills.filter (fun s =>
            ¬ (s.id = skillId ∧ s.userId = userId)) }

/-!
## Admin ban route (admin router)

`PUT /admin/users/:id/ban` runs
`UPDATE users SET isBanned = ?, updatedAt = CURRENT_TIMESTAMP WHERE id = ?
AND isAdmin = 0` and then always answers with a success message; the
`isAdmin = 0` guard silently skips admin rows.
-/

/-- `PUT /admin/users/:id/ban`: the success message and the updated
database (no error branch short of an exception). -/
def banUser (db : DB) (targetId : Nat) (isBanned : Bool) (now : Nat) :
    String × DB :=
  (if isBanned then "User banned successfully" else "User unbanned successfully",
   { db with
     users := db.users.map (fun u =>
       if u.id = targetId ∧ u.isAdmin = false then
         { u with isBanned := isBanned, updatedAt := now }
       else u) })

/-!
## Notification relay (WebSocket server)

The server keeps `const clients = new Map<string, WebSocket>()` from user
id to socket.  The connection handler closes any existing socket for the
same user and stores the new one; each socket carries an `isAlive` flag
driven by a 30-second ping interval (`isAlive === false` on a tick means
the previous ping was never answered, and the socket is terminated; a
`pong` sets `isAlive` back to true); the close handler removes the
registry entry only when it still points at the closing socket;
`broadcastNotification(userId, ...)` sends only when the registry holds a
socket for the user and it is OPEN, and otherwise does nothing.

The embedding replaces the `Map` by an association list keyed by user id
and each `WebSocket` object by a numbered connection record; the
asynchronous event callbacks become a step function over explicit events
(`connect`, `pong`, heartbeat `tick`, `close`).  Closing the replaced
socket in `connect` marks it closed but does not delete the (already
overwritten) registry entry, exactly as the close callback's
`clients.get(userId) === ws` guard behaves once `clients.set` has run.
-/

/-- One WebSocket connection: its identity, the user id it announced,
its heartbeat flag and whether it is still open. -/
structure RelayConn where
  connId : Nat
  userId : String
  isAlive : Bool
  isOpen : Bool
deriving DecidableEq, Repr

/-- Relay state: the `clients` registry (user id → connection id) and the
set of connections the server has seen. -/
structure RelayState where
  clients : List (String × Nat)
  conns : List RelayConn
deriving DecidableEq, Repr

/-- `clients.get(userId)`. -/
def clientsGet (cs : List (String × Nat)) (u : String) : Option Nat :=
  (cs.find? (fun p => p.1 = u)).map Prod.snd

/-- `clients.set(userId, ws)`: replace the entry when the key is present,
append it otherwise. -/
def clientsSet (cs : List (String × Nat)) (u : String) (cid : Nat) :
    List (String × Nat) :=
  if cs.any (fun p => p.1 = u) then
    cs.map (fun p => if p.1 = u then (u, cid) else p)
  else cs ++ [(u, cid)]

/-- `clients.delete(userId)`. -/
def clientsDelete (cs : List (String × Nat)) (u : String) :
    List (String × Nat) :=
  cs.filter (fun p => ¬ p.1 = u)

/-- Look a connection up by id. -/
def RelayState.findConn (s : RelayState) (cid : Nat) : Option RelayConn :=
  s.conns.find? (fun c => c.connId = cid)

/-- Apply `f` to the connection with id `cid`. -/
def RelayState.mapConn (s : RelayState) (cid : Nat)
    (f : RelayConn → RelayConn) : RelayState :=
  { s with conns := s.conns.map (fun c => if c.connId = cid then f c else c) }

/-- The `'close'` callback (also reached through `ws.terminate()`): mark
the socket closed, clear its ping interval, and delete the registry entry
only if it still points at this very socket. -/
def relayClose (s : RelayState) (cid : Nat) : RelayState :=
  match s.findConn cid with
  | none => s
  | some c =>
    let s1 := s.mapConn cid (fun c => { c with isOpen := false })
    if clientsGet s1.clients c.userId = some cid then
      { s1 with clients := clientsDelete s1.clients c.userId }
    else s1

/-- The `wss.on('connection')` callback for a socket announcing `u`:
close any existing socket registered for `u` (its close event will find
the registry already pointing at the new socket, so the entry survives),
then register the new socket with a fresh `isAlive = true`. -/
def relayConnect (s : RelayState) (u : String) (cid : Nat) : RelayState :=
  let s1 :=
    match clientsGet s.clients u with
    | some oldCid => s.mapConn oldCid (fun c => { c with isOpen := false })
    | none => s
  { clients := clientsSet s1.clients u cid
    conns := s1.conns ++ [{ connId := cid, userId := u,
                            isAlive := true, isOpen := true }] }

/-- The `'pong'` callback: `isAlive = true`. -/
def relayPong (s : RelayState) (cid : Nat) : RelayState :=
  s.mapConn cid (fun c => { c with isAlive := true })

/-- One firing of the 30-second ping interval for connection `cid`: a
socket whose previous ping went unanswered (`isAlive === false`) is
terminated (which fires its close handler); otherwise the flag is lowered
and a ping is sent. -/
def relayTick (s : RelayState) (cid : Nat) : RelayState :=
  match s.findConn cid with
  | none => s
  | some c =>
    if c.isAlive = false then relayClose s cid
    else s.mapConn cid (fun c => { c with isAlive := false })

/-- `broadcastNotification(userId, notification)`: the messages actually
sent (empty when the user has no registered socket or the registered
socket is not OPEN); the relay state is never changed and no error is
produced. -/
def relaySendTo (s : RelayState) (u : String) (msg : String) :
    List (Nat × String) :=
  match clientsGet s.clients u with
  | none => []
  | some cid =>
    match s.findConn cid with
    | none => []
    | some c => if c.isOpen then [(cid, msg)] else []

/-- The externally visible relay events. -/
inductive RelayEvent where
  | connect (u : String) (cid : Nat)
  | pong (cid : Nat)
  | tick (cid : Nat)
  | close (cid : Nat)
deriving DecidableEq, Repr

/-- The relay as a state machine over its events. -/
def relayStep (s : RelayState) : RelayEvent → RelayState
  | .connect u cid => relayConnect s u cid
  | .pong cid => relayPong s cid
  | .tick cid => relayTick s cid
  | .close cid => relayClose s cid

/-- The registry holds at most one entry per user id. -/
def RegistryUnique (s : RelayState) : Prop :=
  (s.clients.map Prod.fst).Nodup

instance : DecidablePred RegistryUnique := fun s =>
  inferInstanceAs (Decidable ((s.clients.map Prod.fst).Nodup))

/-- Example relay connection 1 for user `u1`, open, with its heartbeat
flag already lowered (its last ping is unanswered). -/
def exConn : RelayConn :=
  { connId := 1, userId := "u1", isAlive := false, isOpen := true }

/-- Example relay state: user `u1` registered with connection 1. -/
def exRelay : RelayState :=
  { clients := [("u1", 1)], conns := [exConn] }

/-!
## Derived predicates used in the statements
-/

/-- The role condition the status-update handler actually enforces for a
target status, given the requester, the provider (owner of the requested
skill) and the acting user.  The handler checks nothing else before
writing — in particular it never reads the current status. -/
def transitionAuthorized (status : String)
    (requesterId providerId userId : Nat) : Prop :=
  if status = "accepted" ∨ status = "rejected" then
    providerId = userId ∧ requesterId ≠ userId
  else if status = "cancelled" then requesterId = userId
  else requesterId = userId ∨ providerId = userId

instance (status : String) (requesterId providerId userId : Nat) :
    Decidable (transitionAuthorized status requesterId providerId userId) := by
  unfold transitionAuthorized
  infer_instance

/-- At most one rating row per (swap, rater) pair. -/
def AtMostOneRating (rs : List Rating) : Prop :=
  rs.Pairwise (fun a b => ¬ (a.swapId = b.swapId ∧ a.raterId = b.raterId))

instance : DecidablePred AtMostOneRating := fun rs =>
  inferInstanceAs (Decidable (rs.Pairwise _))

/-!
## Concrete example world

A small database used by the counterexamples and the witnesses: user 1
(requester) offers skill 10, user 2 (provider) offers skill 20, user 9 is
an admin, and swap request 100 asks user 2's skill 20 in exchange for
skill 10; its status is the parameter.
-/

/-- Example skill: id 10 owned by user 1, flagged as an offering. -/
def exSkillReact : Skill :=
  { id := 10, userId := 1, name := "React", description := none,
    proficiency := "expert", category := "Tech", isOffering := true,
    isSeeking := false, updatedAt := 0 }

/-- Example skill: id 20 owned by user 2, flagged as an offering. -/
def exSkillFigma : Skill :=
  { id := 20, userId := 2, name := "Figma", description := none,
    proficiency := "expert", category := "Design", isOffering := true,
    isSeeking := false, updatedAt := 0 }

/-- Example user row. -/
def exUser (i : Nat) (admin : Bool) : User :=
  { id := i, isAdmin := admin, isBanned := false, rating := 0, updatedAt := 0 }

/-- Example swap request 100: user 1 offers skill 10 for user 2's
skill 20, in the given status. -/
def exSwap (st : SwapStatus) : SwapRequest :=
  { id := 100, requesterId := 1, skillOfferedId := 10,
    skillRequestedId := 20, status := st, message := none,
    completedAt := none, ratingByRequester := none,
    ratingByReceiver := none, feedbackByRequester := none,
    feedbackByReceiver := none, createdAt := 0, updatedAt := 0 }

/-- Example database with swap 100 in the given status. -/
def exDB (st : SwapStatus) : DB :=
  { users := [exUser 1 false, exUser 2 false, exUser 9 true]
    skills := [exSkillReact, exSkillFigma]
    swapRequests := [exSwap st]
    ratings := []
    nextSwapId := 101
    nextRatingId := 1 }

/-- Example rating row. -/
def exRating (i swap rater rated score : Nat) : Rating :=
  { id := i, swapId := swap, raterId := rater, userId := rated,
    rating := score, comment := none, createdAt := 0, updatedAt := 0 }

/-- Example database in which swap 100 is `completed` and requester 1 has
already rated it (score 5 for user 2). -/
def exDBRated : DB :=
  { users := [exUser 1 false, exUser 2 false]
    skills := [exSkillReact, exSkillFigma]
    swapRequests := [exSwap .completed]
    ratings := [exRating 1 100 1 2 5]
    nextSwapId := 101
    nextRatingId := 2 }

/-- Example skill: id 30 owned by user 7, flagged as an offering. -/
def exSkillPhoto : Skill :=
  { id := 30, userId := 7, name := "Photo", description := none,
    proficiency := "expert", category := "Design", isOffering := true,
    isSeeking := false, updatedAt := 0 }

/-- Example swap 102: user 1 asks user 7's skill 30, already completed. -/
def exSwapPhoto : SwapRequest :=
  { exSwap .completed with id := 102, skillRequestedId := 30 }

/-- Example database where user 7 already received ratings 1 and 1 (from
earlier swaps 90 and 91) and completed swap 102 with requester 1, who has
not rated it yet. -/
def exDBAvg : DB :=
  { users := [exUser 1 false, exUser 7 false]
    skills := [exSkillReact, exSkillPhoto]
    swapRequests := [exSwapPhoto]
    ratings := [exRating 1 90 3 7 1, exRating 2 91 4 7 1]
    nextSwapId := 103
    nextRatingId := 3 }

/-!
## Helper lemmas
-/

/-- `find?` commutes with a map that does not disturb the predicate. -/
theorem find?_map_of_pres {α : Type} (p : α → Bool) (f : α → α)
    (h : ∀ x, p (f x) = p x) (l : List α) :
    (l.map f).find? p = (l.find? p).map f := by
  rw [List.find?_map]
  have hpf : p ∘ f = p := funext h
  rw [hpf]

/-- An element a row-wise update leaves fixed is still in the table. -/
theorem mem_map_self {α : Type} (f : α → α) (l : List α) (x : α)
    (hx : x ∈ l) (h : f x = x) : x ∈ l.map f :=
  h ▸ List.mem_map_of_mem f hx

/-- After the status write, the targeted row is found with the mutation
applied. -/
theorem findSwap_applyStatusWrite (db : DB) (sid : Nat) (status : String)
    (now : Nat) (sr : SwapRequest) (h : db.findSwap sid = some sr) :
    (applyStatusWrite db sid status now).findSwap sid
      = some (statusWriteRow status now sr) := by
  unfold applyStatusWrite DB.findSwap at *
  rw [find?_map_of_pres]
  · rw [h]
    have hid : sr.id = sid := by
      have := List.find?_some h
      simpa using this
    simp [hid]
  · intro x
    by_cases hx : x.id = sid <;> simp [hx, statusWriteRow, parseTarget]

/-!
## C1 — status transitions
-/

/-- C1 (amended): the status-update handler gates a transition *only* by
the role of the acting user (`transitionAuthorized`), never by the current
status: for every stored swap request, whatever its current status —
pending, accepted, or a terminal state — and every admitted target status,
the update succeeds exactly when the role condition holds, performs the
status write (which stores the target status, stamps `updatedAt`, and for
`completed` stamps `completedAt`), and when the role condition fails
returns an error without writing.  No `InvalidStateTransition`-style check
on the current status exists. -/
theorem swap_transition_role_gated_only
    (db : DB) (uid sid now : Nat) (status : String)
    (sr : SwapRequest) (sk : Skill)
    (hsr : db.findSwap sid = some sr)
    (hsk : db.findSkill sr.skillRequestedId = some sk)
    (hst : status = "accepted" ∨ status = "rejected" ∨ status = "completed"
           ∨ status = "cancelled") :
    (updateSwapStatus db uid sid status now
        = .ok (applyStatusWrite db sid status now)
      ↔ transitionAuthorized status sr.requesterId sk.userId uid)
    ∧ (¬ transitionAuthorized status sr.requesterId sk.userId uid →
        ∃ e, updateSwapStatus db uid sid status now = .error e)
    ∧ ((applyStatusWrite db sid status now).findSwap sid).map
        SwapRequest.status = some (parseTarget status) := by
  refine ⟨?_, ?_, ?_⟩
  · rcases hst with h | h | h | h <;> subst h <;>
      simp only [updateSwapStatus, hsr, hsk, transitionAuthorized] <;>
      · constructor
        · intro hok
          by_contra hauth
          simp only [ne_eq] at hok hauth ⊢
          split_ifs at hok <;> simp_all
        · intro hauth
          simp only [ne_eq] at hauth ⊢
          split_ifs <;> simp_all
  · rcases hst with h | h | h | h <;> subst h <;>
      · intro hauth
        simp only [updateSwapStatus, hsr, hsk, transitionAuthorized,
          ne_eq] at hauth ⊢
        split_ifs <;> simp_all
  · rw [findSwap_applyStatusWrite db sid status now sr hsr]
    simp [statusWriteRow]

/-- C1 counterexample: completing a request that is still `pending`
succeeds and stores `completed` — the claim demands that this edge fail
with `InvalidStateTransition` and leave the status `pending`. -/
theorem swap_transition_pending_complete_succeeds :
    updateSwapStatus (exDB .pending) 1 100 "completed" 5
      = .ok (applyStatusWrite (exDB .pending) 100 "completed" 5)
    ∧ ((exDB .pending).findSwap 100).map SwapRequest.status
        = some .pending
    ∧ ((applyStatusWrite (exDB .pending) 100 "completed" 5).findSwap 100).map
        SwapRequest.status = some .completed := by
  refine ⟨?_, by decide, by decide⟩
  decide

/-- C1 witness: the role-only characterization applied to the concrete
database holding swap 100 in the terminal state `rejected`, with
provider 2 targeting `accepted`. -/
theorem swap_transition_role_gated_only_witness :
    (exDB .rejected).findSwap 100 = some (exSwap .rejected)
    ∧ (exDB .rejected).findSkill (exSwap .rejected).skillRequestedId
        = some exSkillFigma
    ∧ ((updateSwapStatus (exDB .rejected) 2 100 "accepted" 5
          = .ok (applyStatusWrite (exDB .rejected) 100 "accepted" 5)
        ↔ transitionAuthorized "accepted" (exSwap .rejected).requesterId
            exSkillFigma.userId 2)
      ∧ (¬ transitionAuthorized "accepted" (exSwap .rejected).requesterId
            exSkillFigma.userId 2 →
          ∃ e, updateSwapStatus (exDB .rejected) 2 100 "accepted" 5
            = .error e)
      ∧ (((applyStatusWrite (exDB .rejected) 100 "accepted" 5).findSwap
            100).map SwapRequest.status = some (parseTarget "accepted"))) :=
  ⟨by decide, by decide,
   swap_transition_role_gated_only (exDB .rejected) 2 100 5 "accepted"
     (exSwap .rejected) exSkillFigma (by decide) (by decide)
     (Or.inl rfl)⟩

/-!
## C4 — accepted / rejected are provider-only
-/

/-- C4: moving a swap request to `accepted` or `rejected` succeeds only
when the acting user owns the requested skill (is the provider); any
other user — in particular the requester — receives the 403
`Only the provider can accept or reject the request` response, and no
write is performed (an error outcome carries no database, so the request
is unchanged). -/
theorem swap_accept_reject_provider_only
    (db : DB) (uid sid now : Nat) (status : String)
    (sr : SwapRequest) (sk : Skill)
    (hsr : db.findSwap sid = some sr)
    (hsk : db.findSkill sr.skillRequestedId = some sk)
    (hst : status = "accepted" ∨ status = "rejected") :
    (∀ db', updateSwapStatus db uid sid status now = .ok db' →
      sk.userId = uid)
    ∧ (sk.userId ≠ uid →
        updateSwapStatus db uid sid status now
          = .error ⟨403, "Only the provider can accept or reject the request"⟩) := by
  rcases hst with h | h <;> subst h <;>
    · constructor
      · intro db' hok
        by_contra hne
        simp only [updateSwapStatus, hsr, hsk] at hok
        split_ifs at hok <;> simp_all
      · intro hne
        simp only [updateSwapStatus, hsr, hsk]
        split_ifs <;> simp_all

/-- C4 witness: requester 1 (not the provider of skill 20) calling
`rejected` on their own pending request receives the 403 provider-only
response. -/
theorem swap_accept_reject_provider_only_witness :
    (exDB .pending).findSwap 100 = some (exSwap .pending)
    ∧ (exDB .pending).findSkill (exSwap .pending).skillRequestedId
        = some exSkillFigma
    ∧ ((∀ db', updateSwapStatus (exDB .pending) 1 100 "rejected" 5
          = .ok db' → exSkillFigma.userId = 1)
      ∧ (exSkillFigma.userId ≠ 1 →
          updateSwapStatus (exDB .pending) 1 100 "rejected" 5
            = .error ⟨403, "Only the provider can accept or reject the request"⟩)) :=
  ⟨by decide, by decide,
   swap_accept_reject_provider_only (exDB .pending) 1 100 5 "rejected"
     (exSwap .pending) exSkillFigma (by decide) (by decide) (Or.inr rfl)⟩

/-!
## C3 — cancellation
-/

/-- C3 (amended): `cancelled` is requester-only, but the handler never
checks that the request is still `pending`: the requester's cancellation
succeeds from *any* current status.  The provider attempting it receives
the 400 `You cannot cancel this request` response (suggesting `rejected`),
and any other non-requester the 403 `Only the requester can cancel the
request` response; both leave the request unchanged. -/
theorem swap_cancel_requester_any_status
    (db : DB) (uid sid now : Nat)
    (sr : SwapRequest) (sk : Skill)
    (hsr : db.findSwap sid = some sr)
    (hsk : db.findSkill sr.skillRequestedId = some sk) :
    (sr.requesterId = uid →
      updateSwapStatus db uid sid "cancelled" now
        = .ok (applyStatusWrite db sid "cancelled" now))
    ∧ (sr.requesterId ≠ uid → sk.userId = uid →
        updateSwapStatus db uid sid "cancelled" now
          = .error ⟨400, "You cannot cancel this request"⟩)
    ∧ (sr.requesterId ≠ uid → sk.userId ≠ uid →
        updateSwapStatus db uid sid "cancelled" now
          = .error ⟨403, "Only the requester can cancel the request"⟩) := by
  refine ⟨?_, ?_, ?_⟩ <;>
    · intros
      simp only [updateSwapStatus, hsr, hsk]
      split_ifs <;> simp_all

/-- C3 counterexample: requester 1 cancels swap 100 while it is already
`completed`, and the cancellation succeeds, storing `cancelled` — the
claim demands success only from `pending`. -/
theorem swap_cancel_completed_succeeds :
    updateSwapStatus (exDB .completed) 1 100 "cancelled" 5
      = .ok (applyStatusWrite (exDB .completed) 100 "cancelled" 5)
    ∧ ((exDB .completed).findSwap 100).map SwapRequest.status
        = some .completed
    ∧ ((applyStatusWrite (exDB .completed) 100 "cancelled" 5).findSwap
        100).map SwapRequest.status = some .cancelled := by
  refine ⟨?_, by decide, by decide⟩
  decide

/-- C3 witness: the cancellation characterization applied to the concrete
pending swap — provider 2's attempt draws the 400 wrong-action response. -/
theorem swap_cancel_requester_any_status_witness :
    (exDB .pending).findSwap 100 = some (exSwap .pending)
    ∧ (exDB .pending).findSkill (exSwap .pending).skillRequestedId
        = some exSkillFigma
    ∧ (((exSwap .pending).requesterId = 2 →
        updateSwapStatus (exDB .pending) 2 100 "cancelled" 5
          = .ok (applyStatusWrite (exDB .pending) 100 "cancelled" 5))
      ∧ ((exSwap .pending).requesterId ≠ 2 → exSkillFigma.userId = 2 →
          updateSwapStatus (exDB .pending) 2 100 "cancelled" 5
            = .error ⟨400, "You cannot cancel this request"⟩)
      ∧ ((exSwap .pending).requesterId ≠ 2 → exSkillFigma.userId ≠ 2 →
          updateSwapStatus (exDB .pending) 2 100 "cancelled" 5
            = .error ⟨403, "Only the requester can cancel the request"⟩)) :=
  ⟨by decide, by decide,
   swap_cancel_requester_any_status (exDB .pending) 2 100 5
     (exSwap .pending) exSkillFigma (by decide) (by decide)⟩

/-!
## C2 — creating a swap request
-/

/-- C2 (amended): creation requires the offered skill to belong to the
requester and be flagged as an offering, and the wanted skill to belong
to the `providerId` named in the request body — who is *not* required to
differ from the requester — and be flagged as an offering; either failure
draws the 400 invalid-skill response.  A pending request by the same
requester for the same wanted skill draws the 400 duplicate response.
Otherwise a `pending` row is inserted and its identifier returned. -/
theorem create_swap_characterization
    (db : DB) (rid pid oid wid : Nat) (msg : Option String) (now : Nat) :
    (db.skills.find? (fun s => s.id = oid ∧ s.userId = rid ∧ s.isOffering)
        = none →
      createSwapRequest db rid (some pid) (some oid) (some wid) msg now
        = .error ⟨400, "Invalid offered skill"⟩)
    ∧ ((db.skills.find? (fun s => s.id = oid ∧ s.userId = rid
          ∧ s.isOffering)).isSome →
       db.skills.find? (fun s => s.id = wid ∧ s.userId = pid ∧ s.isOffering)
          = none →
       createSwapRequest db rid (some pid) (some oid) (some wid) msg now
         = .error ⟨400, "Invalid wanted skill"⟩)
    ∧ ((db.skills.find? (fun s => s.id = oid ∧ s.userId = rid
          ∧ s.isOffering)).isSome →
       (db.skills.find? (fun s => s.id = wid ∧ s.userId = pid
          ∧ s.isOffering)).isSome →
       (db.swapRequests.find? (fun sr => sr.requesterId = rid
          ∧ sr.skillRequestedId = wid
          ∧ sr.status = SwapStatus.pending)).isSome →
       createSwapRequest db rid (some pid) (some oid) (some wid) msg now
         = .error ⟨400, "You already have a pending request for this skill"⟩)
    ∧ ((db.skills.find? (fun s => s.id = oid ∧ s.userId = rid
          ∧ s.isOffering)).isSome →
       (db.skills.find? (fun s => s.id = wid ∧ s.userId = pid
          ∧ s.isOffering)).isSome →
       db.swapRequests.find? (fun sr => sr.requesterId = rid
          ∧ sr.skillRequestedId = wid ∧ sr.status = SwapStatus.pending)
          = none →
       createSwapRequest db rid (some pid) (some oid) (some wid) msg now
         = .ok (db.nextSwapId,
            { db with
              swapRequests := db.swapRequests ++
                [newSwapRow db.nextSwapId rid oid wid msg now]
              nextSwapId := db.nextSwapId + 1 })) := by
  refine ⟨?_, ?_, ?_, ?_⟩
  · intro h1
    simp only [createSwapRequest, h1]
  · intro h1 h2
    rcases Option.isSome_iff_exists.mp h1 with ⟨x1, hx1⟩
    simp only [createSwapRequest, hx1, h2]
  · intro h1 h2 h3
    rcases Option.isSome_iff_exists.mp h1 with ⟨x1, hx1⟩
    rcases Option.isSome_iff_exists.mp h2 with ⟨x2, hx2⟩
    rcases Option.isSome_iff_exists.mp h3 with ⟨x3, hx3⟩
    simp only [createSwapRequest, hx1, hx2, hx3]
  · intro h1 h2 h3
    rcases Option.isSome_iff_exists.mp h1 with ⟨x1, hx1⟩
    rcases Option.isSome_iff_exists.mp h2 with ⟨x2, hx2⟩
    simp only [createSwapRequest, hx1, hx2, h3]

/-- C2 counterexample: user 1 names *themselves* as provider and their own
offered skill 10 as the wanted skill; creation succeeds and inserts a
pending row — the claim demands failure with `InvalidSkillOwnership`
because the wanted skill does not belong to a different user. -/
theorem create_swap_self_provider_succeeds :
    (createSwapRequest (exDB .pending) 1 (some 1) (some 10) (some 10)
        none 7).toOption.map
      (fun p => (p.1, (p.2.findSwap 101).map
        (fun r => (r.requesterId, r.skillRequestedId, r.status))))
      = some (101, some (1, 10, .pending))
    ∧ ((exDB .pending).findSkill 10).map Skill.userId = some 1 := by
  exact ⟨by decide, by decide⟩

/-- C2 witness: the characterization applied concretely — user 1 creating
a request for user 2's skill 20, offering skill 10, on a database with no
conflicting pending request (swap 100 is in state `accepted` there). -/
theorem create_swap_characterization_witness :
    ((exDB .accepted).skills.find? (fun s => s.id = 10 ∧ s.userId = 1
        ∧ s.isOffering)).isSome
    ∧ ((exDB .accepted).skills.find? (fun s => s.id = 20 ∧ s.userId = 2
        ∧ s.isOffering)).isSome
    ∧ (exDB .accepted).swapRequests.find? (fun sr => sr.requesterId = 1
        ∧ sr.skillRequestedId = 20 ∧ sr.status = SwapStatus.pending) = none
    ∧ createSwapRequest (exDB .accepted) 1 (some 2) (some 10) (some 20)
        none 7
      = .ok ((exDB .accepted).nextSwapId,
          { exDB .accepted with
            swapRequests := (exDB .accepted).swapRequests ++
              [newSwapRow (exDB .accepted).nextSwapId 1 10 20 none 7]
            nextSwapId := (exDB .accepted).nextSwapId + 1 }) :=
  ⟨by decide, by decide, by decide,
   (create_swap_characterization (exDB .accepted) 1 2 10 20 none 7).2.2.2
     (by decide) (by decide) (by decide)⟩

/-!
## C5 — deleting a swap request
-/

/-- C5: deletion removes the row only when the caller is the requester or
the provider *and* the request is still `pending`; a non-participant
receives the 403 not-authorized response, and a participant attempting to
delete a non-pending request (e.g. one in `accepted`) receives the 400
only-pending response — the invalid-state rule, checked after the
authorization rule. -/
theorem delete_swap_characterization
    (db : DB) (uid sid : Nat) (sr : SwapRequest) (sk : Skill)
    (hsr : db.findSwap sid = some sr)
    (hsk : db.findSkill sr.skillRequestedId = some sk) :
    (sk.userId ≠ uid → sr.requesterId ≠ uid →
      deleteSwapRequest db uid sid
        = .error ⟨403, "Not authorized to update this swap request"⟩)
    ∧ ((sk.userId = uid ∨ sr.requesterId = uid) →
        sr.status ≠ SwapStatus.pending →
        deleteSwapRequest db uid sid
          = .error ⟨400, "Only pending swap requests can be deleted"⟩)
    ∧ ((sk.userId = uid ∨ sr.requesterId = uid) →
        sr.status = SwapStatus.pending →
        deleteSwapRequest db uid sid
          = .ok { db with swapRequests :=
              db.swapRequests.filter (fun r => ¬ r.id = sid) }) := by
  refine ⟨?_, ?_, ?_⟩ <;>
    · intros h1 h2
      simp only [deleteSwapRequest, hsr, hsk]
      split_ifs <;> first | rfl | (exfalso; tauto)

/-- C5 witness: the delete characterization at swap 100 in state
`accepted` with requester 1 calling — the attempt draws the 400
only-pending response. -/
theorem delete_swap_characterization_witness :
    (exDB .accepted).findSwap 100 = some (exSwap .accepted)
    ∧ (exDB .accepted).findSkill (exSwap .accepted).skillRequestedId
        = some exSkillFigma
    ∧ ((exSkillFigma.userId ≠ 1 → (exSwap .accepted).requesterId ≠ 1 →
        deleteSwapRequest (exDB .accepted) 1 100
          = .error ⟨403, "Not authorized to update this swap request"⟩)
      ∧ ((exSkillFigma.userId = 1 ∨ (exSwap .accepted).requesterId = 1) →
          (exSwap .accepted).status ≠ SwapStatus.pending →
          deleteSwapRequest (exDB .accepted) 1 100
            = .error ⟨400, "Only pending swap requests can be deleted"⟩)
      ∧ ((exSkillFigma.userId = 1 ∨ (exSwap .accepted).requesterId = 1) →
          (exSwap .accepted).status = SwapStatus.pending →
          deleteSwapRequest (exDB .accepted) 1 100
            = .ok { exDB .accepted with
                swapRequests := List.filter (fun r => ¬ r.id = 100)
                  (exDB .accepted).swapRequests })) :=
  ⟨by decide, by decide,
   delete_swap_characterization (exDB .accepted) 1 100 (exSwap .accepted)
     exSkillFigma (by decide) (by decide)⟩

/-!
## C8 — skill mutations are owner-only and fail as NotFound
-/

/-- C8: skill update and delete mutate a row only when it belongs to the
acting user; when the ownership probe finds nothing — whether the id does
not exist or the row belongs to someone else, the two cases being
indistinguishable — both handlers answer 404 `Skill not found`; no error
branch of either handler is anything but that 404 (never a 403), and on
success every row not owned by the caller survives unchanged. -/
theorem skill_mutation_owner_only
    (db : DB) (uid skid : Nat) (input : SkillUpdateInput) (now : Nat) :
    (db.skills.find? (fun s => s.id = skid ∧ s.userId = uid) = none →
      updateSkill db uid skid input now = .error ⟨404, "Skill not found"⟩
      ∧ deleteSkill db uid skid = .error ⟨404, "Skill not found"⟩)
    ∧ (∀ e, updateSkill db uid skid input now = .error e →
        e = ⟨404, "Skill not found"⟩)
    ∧ (∀ e, deleteSkill db uid skid = .error e →
        e = ⟨404, "Skill not found"⟩)
    ∧ (∀ db', updateSkill db uid skid input now = .ok db' →
        ∀ s ∈ db.skills, s.userId ≠ uid → s ∈ db'.skills)
    ∧ (∀ db', deleteSkill db uid skid = .ok db' →
        ∀ s ∈ db.skills, s.userId ≠ uid → s ∈ db'.skills) := by
  refine ⟨?_, ?_, ?_, ?_, ?_⟩
  · intro h
    constructor <;> simp only [updateSkill, deleteSkill, h]
  · intro e he
    unfold updateSkill at he
    rcases hf : db.skills.find? (fun s => s.id = skid ∧ s.userId = uid) with
      _ | x <;> rw [hf] at he <;> simp_all
  · intro e he
    unfold deleteSkill at he
    rcases hf : db.skills.find? (fun s => s.id = skid ∧ s.userId = uid) with
      _ | x <;> rw [hf] at he <;> simp_all
  · intro db' hok s hs hsu
    unfold updateSkill at hok
    rcases hf : db.skills.find? (fun s => s.id = skid ∧ s.userId = uid) with
      _ | x <;> rw [hf] at hok
    · exact absurd hok (by simp)
    · simp only [Except.ok.injEq] at hok
      subst hok
      exact mem_map_self _ _ _ hs (by rw [if_neg]; tauto)
  · intro db' hok s hs hsu
    unfold deleteSkill at hok
    rcases hf : db.skills.find? (fun s => s.id = skid ∧ s.userId = uid) with
      _ | x <;> rw [hf] at hok
    · exact absurd hok (by simp)
    · simp only [Except.ok.injEq] at hok
      subst hok
      exact List.mem_filter.mpr ⟨hs, by simp; tauto⟩

/-- C8 witness: user 2 attempting to update or delete user 1's skill 10
draws 404 `Skill not found`, and the characterization's other clauses at
the same input. -/
theorem skill_mutation_owner_only_witness :
    ((exDB .pending).skills.find? (fun s => s.id = 10 ∧ s.userId = 2)
      = none)
    ∧ ((updateSkill (exDB .pending) 2 10
          ⟨"React", "offered", none, "expert"⟩ 3
            = .error ⟨404, "Skill not found"⟩
        ∧ deleteSkill (exDB .pending) 2 10
            = .error ⟨404, "Skill not found"⟩)) :=
  ⟨by decide,
   (skill_mutation_owner_only (exDB .pending) 2 10
     ⟨"React", "offered", none, "expert"⟩ 3).1 (by decide)⟩

/-!
## C10 — admins cannot be banned
-/

/-- C10: the ban endpoint's `UPDATE ... WHERE id = ? AND isAdmin = 0`
leaves every admin row untouched (when every row with the target id is an
admin row, the whole table is unchanged), yet the endpoint always answers
with the success message; consequently the invariant that no admin row is
banned is preserved by the operation for any target and flag. -/
theorem admin_ban_never_bans_admins
    (db : DB) (tid : Nat) (b : Bool) (now : Nat) :
    (∀ u ∈ db.users, u.isAdmin = true → u ∈ (banUser db tid b now).2.users)
    ∧ ((∀ u ∈ db.users, u.id = tid → u.isAdmin = true) →
        (banUser db tid b now).2.users = db.users)
    ∧ ((banUser db tid b now).1
        = if b then "User banned successfully"
          else "User unbanned successfully")
    ∧ ((∀ u ∈ db.users, u.isAdmin = true → u.isBanned = false) →
        ∀ u ∈ (banUser db tid b now).2.users,
          u.isAdmin = true → u.isBanned = false) := by
  refine ⟨?_, ?_, ?_, ?_⟩
  · intro u hu ha
    exact mem_map_self _ _ _ hu (by rw [if_neg]; simp [ha])
  · intro h
    unfold banUser
    simp only
    have hfix : ∀ u ∈ db.users,
        (if u.id = tid ∧ u.isAdmin = false then
          { u with isBanned := b, updatedAt := now } else u) = u := by
      intro u hu
      rw [if_neg]
      intro hc
      exact absurd (h u hu hc.1) (by simp [hc.2])
    rw [List.map_congr_left hfix]
    simp
  · unfold banUser
    rcases b <;> simp
  · intro h u' hu' ha'
    unfold banUser at hu'
    simp only [List.mem_map] at hu'
    rcases hu' with ⟨u, hu, hfu⟩
    by_cases hc : u.id = tid ∧ u.isAdmin = false
    · rw [if_pos hc] at hfu
      subst hfu
      exact absurd ha' (by simp [hc.2])
    · rw [if_neg hc] at hfu
      subst hfu
      exact h u hu ha'

/-- C10 witness: banning admin user 9 in the concrete database leaves the
users table unchanged, answers the success message, and preserves the
no-banned-admin invariant. -/
theorem admin_ban_never_bans_admins_witness :
    (∀ u ∈ (exDB .pending).users, u.id = 9 → u.isAdmin = true)
    ∧ (∀ u ∈ (exDB .pending).users, u.isAdmin = true → u.isBanned = false)
    ∧ ((banUser (exDB .pending) 9 true 3).2.users = (exDB .pending).users
      ∧ (banUser (exDB .pending) 9 true 3).1 = "User banned successfully"
      ∧ ∀ u ∈ (banUser (exDB .pending) 9 true 3).2.users,
          u.isAdmin = true → u.isBanned = false) :=
  ⟨by decide, by decide,
   (admin_ban_never_bans_admins (exDB .pending) 9 true 3).2.1 (by decide),
   by simpa using (admin_ban_never_bans_admins (exDB .pending) 9 true 3).2.2.1,
   (admin_ban_never_bans_admins (exDB .pending) 9 true 3).2.2.2 (by decide)⟩

/-!
## C7 — at most one rating per (swap, rater); idempotent upsert
-/

/-- A row-wise mutation that does not touch the (swapId, raterId) key
preserves the at-most-one-rating invariant. -/
theorem atMostOne_map_of_key_fixed (l : List Rating) (f : Rating → Rating)
    (hf : ∀ x, (f x).swapId = x.swapId ∧ (f x).raterId = x.raterId)
    (h : AtMostOneRating l) : AtMostOneRating (l.map f) := by
  rw [AtMostOneRating, List.pairwise_map]
  refine h.imp ?_
  intro a b hab
  rw [(hf a).1, (hf a).2, (hf b).1, (hf b).2]
  exact hab

/-- C7: the upsert rating route requires the swap to be `completed`
(else 404) and the caller to be a participant (else 403); when a rating
by this rater for this swap already exists it is updated in place — the
table keeps its length, no second row appears — and in every successful
outcome the at-most-one-rating-per-(swap, rater) invariant is
preserved. -/
theorem rating_upsert_at_most_one
    (db : DB) (uid sid r : Nat) (fb : Option String) (now : Nat) :
    (∀ db', submitRating db uid sid r fb now = .ok db' →
        AtMostOneRating db.ratings → AtMostOneRating db'.ratings)
    ∧ (db.swapRequests.find? (fun sr => sr.id = sid
          ∧ sr.status = SwapStatus.completed) = none →
        submitRating db uid sid r fb now
          = .error ⟨404, "Completed swap request not found"⟩)
    ∧ (∀ sr sk,
        db.swapRequests.find? (fun sr => sr.id = sid
          ∧ sr.status = SwapStatus.completed) = some sr →
        db.findSkill sr.skillRequestedId = some sk →
        sr.requesterId ≠ uid → sk.userId ≠ uid →
        submitRating db uid sid r fb now
          = .error ⟨403, "You are not part of this swap"⟩)
    ∧ (∀ sr sk ex,
        db.swapRequests.find? (fun sr => sr.id = sid
          ∧ sr.status = SwapStatus.completed) = some sr →
        db.findSkill sr.skillRequestedId = some sk →
        (sr.requesterId = uid ∨ sk.userId = uid) →
        db.ratings.find? (fun rr => rr.swapId = sid ∧ rr.raterId = uid)
          = some ex →
        ∃ db', submitRating db uid sid r fb now = .ok db'
          ∧ db'.ratings = db.ratings.map (fun rr =>
              if rr.id = ex.id then ratingUpdateRow r fb now rr else rr)
          ∧ db'.ratings.length = db.ratings.length) := by
  refine ⟨?_, ?_, ?_, ?_⟩
  · intro db' hok hinv
    rcases h1 : db.swapRequests.find? (fun sr => sr.id = sid
        ∧ sr.status = SwapStatus.completed) with _ | sr
    · simp only [submitRating, h1, reduceCtorEq] at hok
    rcases h2 : db.findSkill sr.skillRequestedId with _ | sk
    · simp only [submitRating, h1, h2, reduceCtorEq] at hok
    by_cases h3 : sr.requesterId ≠ uid ∧ sk.userId ≠ uid
    · simp only [submitRating, h1, h2, if_pos h3, reduceCtorEq] at hok
    rcases h4 : db.ratings.find? (fun rr => rr.swapId = sid
        ∧ rr.raterId = uid) with _ | ex
    · -- insert path: the new (sid, uid) key is fresh
      simp only [submitRating, h1, h2, if_neg h3, h4,
        Except.ok.injEq] at hok
      subst hok
      show AtMostOneRating (db.ratings ++ [_])
      rw [AtMostOneRating, List.pairwise_append]
      refine ⟨hinv, List.pairwise_singleton _ _, ?_⟩
      intro a ha b hb
      simp only [List.mem_singleton] at hb
      subst hb
      have hfresh := List.find?_eq_none.mp h4 a ha
      simp only [newRatingRow, decide_eq_true_eq] at hfresh ⊢
      tauto
    · -- update path: the key columns are untouched
      simp only [submitRating, h1, h2, if_neg h3, h4,
        Except.ok.injEq] at hok
      subst hok
      show AtMostOneRating (db.ratings.map _)
      refine atMostOne_map_of_key_fixed _ _ ?_ hinv
      intro x
      by_cases hx : x.id = ex.id <;> simp [hx, ratingUpdateRow]
  · intro h1
    simp only [submitRating, h1]
  · intro sr sk h1 h2 h3 h4
    simp only [submitRating, h1, h2, if_pos (And.intro h3 h4)]
  · intro sr sk ex h1 h2 h3 h4
    have hneg : ¬ (sr.requesterId ≠ uid ∧ sk.userId ≠ uid) := by tauto
    have hex : ∃ db', submitRating db uid sid r fb now = .ok db' := by
      simp only [submitRating, h1, h2, if_neg hneg, h4]
      exact ⟨_, rfl⟩
    rcases hex with ⟨db', hok⟩
    have hr : db'.ratings = db.ratings.map (fun rr =>
        if rr.id = ex.id then ratingUpdateRow r fb now rr else rr) := by
      have h5 := hok
      simp only [submitRating, h1, h2, if_neg hneg, h4,
        Except.ok.injEq] at h5
      subst h5
      rfl
    exact ⟨db', hok, hr, by rw [hr, List.length_map]⟩

/-- C7 witness: in a database holding swap 100 `completed` and an
existing rating by requester 1 for swap 100, resubmission updates the
row in place; the invariant holds before and after. -/
theorem rating_upsert_at_most_one_witness :
    (exDBRated.swapRequests.find? (fun sr => sr.id = 100
        ∧ sr.status = SwapStatus.completed) = some (exSwap .completed))
    ∧ (exDBRated.findSkill (exSwap .completed).skillRequestedId
        = some exSkillFigma)
    ∧ ((exSwap .completed).requesterId = 1 ∨ exSkillFigma.userId = 1)
    ∧ (exDBRated.ratings.find? (fun rr => rr.swapId = 100
        ∧ rr.raterId = 1) = some (exRating 1 100 1 2 5))
    ∧ (∃ db', submitRating exDBRated 1 100 4 none 9 = .ok db'
        ∧ db'.ratings = exDBRated.ratings.map (fun rr =>
            if rr.id = (exRating 1 100 1 2 5).id then
              ratingUpdateRow 4 none 9 rr
            else rr)
        ∧ db'.ratings.length = exDBRated.ratings.length) :=
  ⟨by decide, by decide, by decide, by decide,
   (rating_upsert_at_most_one exDBRated 1 100 4 none 9).2.2.2
     (exSwap .completed) exSkillFigma (exRating 1 100 1 2 5)
     (by decide) (by decide) (by decide) (by decide)⟩

/-!
## C6 — the persisted average and the displayed average
-/

/-- After `updateUserAverageRating`, the user's row carries exactly the
freshly computed average (0 for a user with no ratings), unrounded. -/
theorem findUser_updateUserAverageRating (db : DB) (v now : Nat) (u : User)
    (hu : db.findUser v = some u) :
    (updateUserAverageRating db v now).findUser v
      = some { u with rating := (db.avgRating v).getD 0, updatedAt := now } := by
  unfold updateUserAverageRating DB.findUser at *
  rw [find?_map_of_pres]
  · rw [hu]
    have hid : u.id = v := by simpa using List.find?_some hu
    simp [hid]
  · intro x
    by_cases hx : x.id = v <;> simp [hx]

/-- The persisted rating after recomputation equals the exact average of
the (unchanged) ratings table. -/
theorem persisted_avg (db : DB) (v now : Nat) (u : User)
    (hu : db.findUser v = some u) :
    ((updateUserAverageRating db v now).findUser v).map User.rating
      = some (((updateUserAverageRating db v now).avgRating v).getD 0) := by
  rw [findUser_updateUserAverageRating db v now u hu]
  rfl

/-- C6 (amended): after a successful rating submission the rated user's
*persisted* `users.rating` equals the exact arithmetic mean of all
ratings they have received — it is *not* rounded; rounding to one
decimal place happens only in `GET /ratings/user/:userId`, which reports
`toFixed(1)` of the mean together with the count of received ratings. -/
theorem rating_average_exact_mean
    (db : DB) (uid sid r : Nat) (fb : Option String) (now : Nat)
    (sr : SwapRequest) (sk : Skill) (u : User) (db' : DB)
    (h1 : db.swapRequests.find? (fun sr => sr.id = sid
        ∧ sr.status = SwapStatus.completed) = some sr)
    (h2 : db.findSkill sr.skillRequestedId = some sk)
    (hu : db.findUser (if sr.requesterId = uid then sk.userId
        else sr.requesterId) = some u)
    (hok : submitRating db uid sid r fb now = .ok db') :
    ((db'.findUser (if sr.requesterId = uid then sk.userId
        else sr.requesterId)).map User.rating
      = some ((db'.avgRating (if sr.requesterId = uid then sk.userId
          else sr.requesterId)).getD 0))
    ∧ (∀ v, (getRatingsForUser db' v).totalRatings
        = (db'.ratingsFor v).length)
    ∧ (∀ v q, db'.avgRating v = some q → q ≠ 0 →
        (getRatingsForUser db' v).avgRating = some (roundTenth q)) := by
  refine ⟨?_, fun v => rfl, ?_⟩
  · by_cases h3 : sr.requesterId ≠ uid ∧ sk.userId ≠ uid
    · simp only [submitRating, h1, h2, if_pos h3, reduceCtorEq] at hok
    rcases h4 : db.ratings.find? (fun rr => rr.swapId = sid
        ∧ rr.raterId = uid) with _ | ex <;>
      · simp only [submitRating, h1, h2, if_neg h3, h4,
          Except.ok.injEq] at hok
        subst hok
        exact persisted_avg _ _ now u hu
  · intro v q hq hq0
    unfold getRatingsForUser
    simp only [hq, if_neg hq0]

/-- C6 counterexample: user 7 has received ratings 1 and 1; requester 1
rates completed swap 102 with 2.  The persisted average becomes exactly
4/3, while the mean rounded to one decimal place is 13/10 — the persisted
value the claim predicts.  The GET endpoint displays 13/10 with count 3. -/
theorem rating_average_persisted_unrounded :
    (submitRating exDBAvg 1 102 2 none 9).toOption.map
      (fun db' => ((db'.findUser 7).map User.rating,
        (getRatingsForUser db' 7).avgRating,
        (getRatingsForUser db' 7).totalRatings))
      = some (some (4/3 : ℚ), some (13/10 : ℚ), 3)
    ∧ (4/3 : ℚ) ≠ 13/10 := by
  constructor
  · simp only [submitRating, exDBAvg, exSwapPhoto, exSwap, exSkillReact,
      exSkillPhoto, exRating, exUser, updateUserAverageRating,
      DB.avgRating, DB.ratingsFor, DB.findUser, DB.findSkill,
      getRatingsForUser, roundTenth, newRatingRow, List.find?]
    simp [Except.toOption]
    norm_num
  · norm_num

/-- C6 witness: the exact-mean theorem applied to the concrete submission
of rating 2 by requester 1 on completed swap 102. -/
theorem rating_average_exact_mean_witness :
    ∃ db', submitRating exDBAvg 1 102 2 none 9 = .ok db'
      ∧ ((db'.findUser (if exSwapPhoto.requesterId = 1 then
            exSkillPhoto.userId else exSwapPhoto.requesterId)).map
          User.rating
        = some ((db'.avgRating (if exSwapPhoto.requesterId = 1 then
            exSkillPhoto.userId else exSwapPhoto.requesterId)).getD 0))
      ∧ (∀ v, (getRatingsForUser db' v).totalRatings
          = (db'.ratingsFor v).length)
      ∧ (∀ v q, db'.avgRating v = some q → q ≠ 0 →
          (getRatingsForUser db' v).avgRating = some (roundTenth q)) := by
  have hex : ∃ db', submitRating exDBAvg 1 102 2 none 9 = .ok db' := by
    have hko : (submitRating exDBAvg 1 102 2 none 9).isOk = true := by decide
    rcases hc : submitRating exDBAvg 1 102 2 none 9 with e | db'
    · rw [hc] at hko
      exact absurd hko (by simp [Except.isOk, Except.toBool])
    · exact ⟨db', rfl⟩
  rcases hex with ⟨db', hok⟩
  exact ⟨db', hok,
    rating_average_exact_mean exDBAvg 1 102 2 none 9 exSwapPhoto
      exSkillPhoto (exUser 7 false) db' (by decide) (by decide) (by decide)
      hok⟩

/-!
## C9 — the notification relay registry
-/

/-- `clients.set` leaves the user mapped to the new connection. -/
theorem clientsGet_set_self (cs : List (String × Nat)) (u : String)
    (cid : Nat) : clientsGet (clientsSet cs u cid) u = some cid := by
  unfold clientsGet clientsSet
  by_cases h : cs.any (fun p => p.1 = u)
  · rw [if_pos h, find?_map_of_pres]
    · rcases hf : cs.find? (fun p => p.1 = u) with _ | p
      · rw [List.any_eq_true] at h
        rcases h with ⟨x, hx, hpx⟩
        have := List.find?_eq_none.mp hf x hx
        simp_all
      · have hp := List.find?_some hf
        simp only [decide_eq_true_eq] at hp
        rw [hf]
        simp [hp]
    · intro x
      by_cases hx : x.1 = u <;> simp [hx]
  · rw [if_neg h, List.find?_append]
    have hnone : cs.find? (fun p => decide (p.1 = u)) = none := by
      rw [List.find?_eq_none]
      intro x hx
      rw [Bool.not_eq_true, List.any_eq_false] at h
      simpa using h x hx
    rw [hnone]
    simp

/-- `clients.delete` removes the user's entry. -/
theorem clientsGet_delete_self (cs : List (String × Nat)) (u : String) :
    clientsGet (clientsDelete cs u) u = none := by
  unfold clientsGet clientsDelete
  have hnone : (cs.filter (fun p => ¬ p.1 = u)).find?
      (fun p => decide (p.1 = u)) = none := by
    rw [List.find?_filter, List.find?_eq_none]
    intro x hx
    simp
  rw [hnone]
  rfl

/-- Deleting an entry keeps the registry keys duplicate-free. -/
theorem nodup_keys_clientsDelete (cs : List (String × Nat)) (u : String)
    (h : (cs.map Prod.fst).Nodup) :
    ((clientsDelete cs u).map Prod.fst).Nodup :=
  h.sublist ((List.filter_sublist cs).map Prod.fst)

/-- `clients.set` keeps the registry keys duplicate-free. -/
theorem nodup_keys_clientsSet (cs : List (String × Nat)) (u : String)
    (cid : Nat) (h : (cs.map Prod.fst).Nodup) :
    ((clientsSet cs u cid).map Prod.fst).Nodup := by
  unfold clientsSet
  by_cases hc : cs.any (fun p => p.1 = u)
  · rw [if_pos hc]
    have hkeys : (cs.map (fun p => if p.1 = u then (u, cid) else p)).map
        Prod.fst = cs.map Prod.fst := by
      rw [List.map_map]
      refine List.map_congr_left ?_
      intro x _
      by_cases hx : x.1 = u <;> simp [hx]
    rw [hkeys]
    exact h
  · rw [if_neg hc, List.map_append]
    have hmem : u ∉ cs.map Prod.fst := by
      rw [Bool.not_eq_true, List.any_eq_false] at hc
      intro hmem
      rcases List.mem_map.mp hmem with ⟨x, hx, hfx⟩
      have hcx : ¬ x.1 = u := by simpa using hc x hx
      exact hcx hfx
    simp [List.nodup_append, h, hmem]

/-- C9: the relay registry maps each user to at most one channel and
every event preserves that; a new connection for an already-registered
user closes the previous channel and re-points the registry at the new
one; a heartbeat tick finding the liveness flag still lowered terminates
the channel and removes its registry entry; and sending to a user with no
registered channel, or whose registered channel is closed, sends nothing
and changes nothing — a silent no-op, not an error. -/
theorem relay_registry_invariants :
    (∀ s e, RegistryUnique s → RegistryUnique (relayStep s e))
    ∧ (∀ s u cid oldCid oldC,
        clientsGet s.clients u = some oldCid →
        s.findConn oldCid = some oldC → oldCid ≠ cid →
        clientsGet (relayConnect s u cid).clients u = some cid
        ∧ (relayConnect s u cid).findConn oldCid
            = some { oldC with isOpen := false })
    ∧ (∀ s cid c,
        s.findConn cid = some c → c.isAlive = false →
        clientsGet s.clients c.userId = some cid →
        ((relayTick s cid).findConn cid).map RelayConn.isOpen = some false
        ∧ clientsGet (relayTick s cid).clients c.userId = none)
    ∧ (∀ s u msg,
        (clientsGet s.clients u = none → relaySendTo s u msg = [])
        ∧ (∀ cid c, clientsGet s.clients u = some cid →
            s.findConn cid = some c → c.isOpen = false →
            relaySendTo s u msg = [])) := by
  have hclose : ∀ s cid, RegistryUnique s → RegistryUnique (relayClose s cid) := by
    intro s cid h
    unfold relayClose
    rcases hf : s.findConn cid with _ | c
    · exact h
    · simp only
      by_cases hreg : clientsGet (s.mapConn cid
          (fun c => { c with isOpen := false })).clients c.userId = some cid
      · rw [if_pos hreg]
        exact nodup_keys_clientsDelete _ _ h
      · rw [if_neg hreg]
        exact h
  refine ⟨?_, ?_, ?_, ?_⟩
  · intro s e h
    rcases e with ⟨u, cid⟩ | cid | cid | cid
    · exact nodup_keys_clientsSet _ _ _
        (by rcases hg : clientsGet s.clients u with _ | oldCid <;>
          simp only [relayStep, relayConnect, hg] <;> exact h)
    · exact h
    · show RegistryUnique (relayTick s cid)
      unfold relayTick
      rcases hf : s.findConn cid with _ | c
      · exact h
      · simp only
        by_cases ha : c.isAlive = false
        · rw [if_pos ha]
          exact hclose s cid h
        · rw [if_neg ha]
          exact h
    · exact hclose s cid h
  · intro s u cid oldCid oldC hreg hconn hne
    constructor
    · have hclients : (relayConnect s u cid).clients
          = clientsSet s.clients u cid := by
        unfold relayConnect
        rw [hreg]
        rfl
      rw [hclients]
      exact clientsGet_set_self _ _ _
    · unfold relayConnect
      rw [hreg]
      simp only
      show ((s.mapConn oldCid (fun c => { c with isOpen := false })).conns
          ++ _).find? _ = _
      rw [List.find?_append]
      have hfirst : (s.mapConn oldCid
          (fun c => { c with isOpen := false })).conns.find?
          (fun c => c.connId = oldCid) = some { oldC with isOpen := false } := by
        unfold RelayState.mapConn
        simp only
        rw [find?_map_of_pres]
        · unfold RelayState.findConn at hconn
          rw [hconn]
          have hid : oldC.connId = oldCid := by
            simpa using List.find?_some hconn
          simp [hid]
        · intro x
          by_cases hx : x.connId = oldCid <;> simp [hx]
      rw [hfirst]
      rfl
  · intro s cid c hf ha hreg
    have hred : relayTick s cid = relayClose s cid := by
      unfold relayTick
      rw [hf]
      simp only [ha]
      rfl
    have hcl : relayClose s cid
        = { (s.mapConn cid (fun c => { c with isOpen := false })) with
            clients := clientsDelete s.clients c.userId } := by
      unfold relayClose
      rw [hf]
      simp only
      rw [if_pos ?_]
      · rfl
      · show clientsGet s.clients c.userId = some cid
        exact hreg
    constructor
    · rw [hred, hcl]
      show ((s.conns.map _).find? _).map _ = _
      rw [find?_map_of_pres]
      · unfold RelayState.findConn at hf
        rw [hf]
        have hid : c.connId = cid := by simpa using List.find?_some hf
        simp [hid]
      · intro x
        by_cases hx : x.connId = cid <;> simp [hx]
    · rw [hred, hcl]
      exact clientsGet_delete_self _ _
  · intro s u msg
    constructor
    · intro h
      simp only [relaySendTo, h]
    · intro cid c hreg hconn hopen
      simp only [relaySendTo, hreg, hconn, hopen]
      simp

/-- C9 witness: the invariants applied to the concrete one-user relay
state — a tick on the stale connection 1 closes it and empties the
registry entry, a reconnect as connection 2 replaces connection 1, and a
send to the unknown user `u2` is a no-op. -/
theorem relay_registry_invariants_witness :
    (RegistryUnique exRelay
      ∧ RegistryUnique (relayStep exRelay (.connect "u1" 2)))
    ∧ (clientsGet exRelay.clients "u1" = some 1
      ∧ exRelay.findConn 1 = some exConn
      ∧ (clientsGet (relayConnect exRelay "u1" 2).clients "u1" = some 2
        ∧ (relayConnect exRelay "u1" 2).findConn 1
            = some { exConn with isOpen := false }))
    ∧ (exConn.isAlive = false
      ∧ (((relayTick exRelay 1).findConn 1).map RelayConn.isOpen
            = some false
        ∧ clientsGet (relayTick exRelay 1).clients exConn.userId = none))
    ∧ (clientsGet exRelay.clients "u2" = none
      ∧ relaySendTo exRelay "u2" "hello" = []) :=
  ⟨⟨by decide,
    relay_registry_invariants.1 exRelay (.connect "u1" 2) (by decide)⟩,
   ⟨by decide, by decide,
    relay_registry_invariants.2.1 exRelay "u1" 2 1 exConn (by decide)
      (by decide) (by decide)⟩,
   ⟨by decide,
    relay_registry_invariants.2.2.1 exRelay 1 exConn (by decide) (by decide)
      (by decide)⟩,
   ⟨by decide,
    (relay_registry_invariants.2.2.2 exRelay "u2" "hello").1 (by decide)⟩⟩

end SkillSwap
